import Mathlib

/-!
Verification of the Gmail-Automation command-interpretation core.

This file is a shallow embedding of the repository code that the claims
are about:

- app/services/ai_service.py: AIService.parse_command,
  AIService.categorize_emails, AIService.generate_digest and the prompt
  construction they perform;
- app/api/routes/chat.py: the chat_message handler, i.e. the action
  dispatch over the parsed command dict (lines 150-213), the conversation
  append (lines 215-243) and the final ChatResponse (lines 245-251).

External collaborators (the Gmail API wrapper and the Gemini completion
call) are modelled as function-valued inputs; every call the dispatcher
makes to the mailbox is recorded in a trace so that claims of the form
"no mailbox operation is performed" are statable.

Python dynamic values that flow out of json.loads are modelled by the
inductive type Json below; Python dicts are association lists in which
a later duplicate key overwrites the earlier one at construction time,
so lookup is the first match.
-/

/-- JSON values as produced by json.loads on the oracle output.  Numbers
are modelled as exact rationals (the concrete literals the claims touch,
such as 0.3, 0.9 or 1.5, are exactly representable). -/
inductive Json where
  | null : Json
  | bool (b : Bool) : Json
  | num (q : ℚ) : Json
  | str (s : String) : Json
  | arr (xs : List Json) : Json
  | obj (kvs : List (String × Json)) : Json

/-- Lookup in a decoded JSON object, modelling Python dict.get with no
default: first matching key (duplicates are already collapsed when the
object is built, mirroring dict construction). -/
def jget (kvs : List (String × Json)) (k : String) : Option Json :=
  (kvs.find? (fun kv => kv.1 = k)).map (·.2)

/-- Insert a key-value pair into a decoded object the way Python dict
construction does: an existing key keeps its position but gets the new
value, a new key is appended at the end. -/
def jinsert (kvs : List (String × Json)) (k : String) (v : Json) :
    List (String × Json) :=
  if (kvs.find? (fun kv => kv.1 = k)).isSome then
    kvs.map (fun kv => if kv.1 = k then (k, v) else kv)
  else
    kvs ++ [(k, v)]

/-- Python truthiness of a decoded JSON value (used by the dispatch
code in conditions such as "if not query" and "if not to"). -/
def jsonFalsy : Json → Bool
  | Json.null => true
  | Json.bool b => !b
  | Json.num q => q = 0
  | Json.str s => s.isEmpty
  | Json.arr xs => xs.isEmpty
  | Json.obj kvs => kvs.isEmpty

/-- Test whether the first character list starts the second. -/
def charPrefixOf : List Char → List Char → Bool
  | [], _ => true
  | _ :: _, [] => false
  | c :: ps, h :: hs => c = h && charPrefixOf ps hs

/-- Test whether the first character list occurs contiguously anywhere
in the second. -/
def charOccursIn (pat : List Char) : List Char → Bool
  | [] => pat.isEmpty
  | h :: hs => charPrefixOf pat (h :: hs) || charOccursIn pat hs

/-- Substring test on strings (Python "needle in haystack"). -/
def containsSub (hay pat : String) : Bool :=
  charOccursIn pat.toList hay.toList

/-- Python whitespace as recognized by str.strip with no argument. -/
def isPyWs (c : Char) : Bool :=
  c = ' ' || c = '\t' || c = '\n' || c = '\r' || c = '\x0b' || c = '\x0c'

/-- Python str.strip(): remove leading and trailing whitespace. -/
def pyStrip (s : String) : String :=
  String.mk (((s.toList.dropWhile isPyWs).reverse.dropWhile isPyWs).reverse)

/-- A normalized message record as produced by
GmailService.parse_email; only the fields the verified components read
are carried.  All fields are always present on a parsed email, so the
dict .get accesses with defaults in the Python code reduce to plain
field reads. -/
structure Email where
  id : String
  subject : String
  sender_name : String
  sender_email : String
  body : String
deriving DecidableEq, Repr

section Categorizer

/-- The five bucket names of AIService.categorize_emails. -/
inductive Cat where
  | urgent | work | personal | promotions | other
deriving DecidableEq, Repr

/-- The result dict of categorize_emails: it always carries exactly the
five keys urgent, work, personal, promotions, other, each holding an
ordered list of emails. -/
structure Categories where
  urgent : List Email
  work : List Email
  personal : List Email
  promotions : List Email
  other : List Email
deriving DecidableEq, Repr

/-- The empty five-bucket dict built at the top of categorize_emails. -/
def Categories.empty : Categories := ⟨[], [], [], [], []⟩

/-- Append an email at the end of the bucket named by c, modelling
categories[c].append(email). -/
def Categories.push (cs : Categories) (c : Cat) (e : Email) : Categories :=
  match c with
  | Cat.urgent => { cs with urgent := cs.urgent ++ [e] }
  | Cat.work => { cs with work := cs.work ++ [e] }
  | Cat.personal => { cs with personal := cs.personal ++ [e] }
  | Cat.promotions => { cs with promotions := cs.promotions ++ [e] }
  | Cat.other => { cs with other := cs.other ++ [e] }

/-- The rule cascade in the body of the loop of categorize_emails
(ai_service.py lines 242-257): keyword tests on the lowercased subject,
then on the lowercased sender address, first match wins, else
personal. -/
def bucketOf (e : Email) : Cat :=
  let subject := e.subject.toLower
  let sender := e.sender_email.toLower
  if ["urgent", "asap", "important", "critical"].any
      (fun w => containsSub subject w) then
    Cat.urgent
  else if ["unsubscribe", "promo", "sale", "offer", "deal"].any
      (fun w => containsSub subject w) then
    Cat.promotions
  else if ["noreply", "notification", "no-reply"].any
      (fun w => containsSub sender w) then
    Cat.promotions
  else if ["project", "meeting", "deadline", "report", "task"].any
      (fun w => containsSub subject w) then
    Cat.work
  else
    Cat.personal

/-- AIService.categorize_emails (ai_service.py lines 214-259): the
empty input short-circuits to the five empty buckets; otherwise the loop
appends each email to the bucket selected by the rule cascade.  (For
empty input the loop body never runs, so the two code paths produce the
same value and are modelled by the single fold.) -/
def categorize_emails (emails : List Email) : Categories :=
  emails.foldl (fun cs e => cs.push (bucketOf e) e) Categories.empty

end Categorizer

section JsonLoads

/-- Skip JSON whitespace. -/
def skipWs (cs : List Char) : List Char :=
  cs.dropWhile (fun c => c = ' ' || c = '\n' || c = '\t' || c = '\r')

/-- Decode a single-character JSON string escape. -/
def escChar (c : Char) : Option Char :=
  if c = '"' then some c
  else if c = '\\' then some c
  else if c = '/' then some c
  else if c = 'n' then some '\n'
  else if c = 't' then some '\t'
  else if c = 'r' then some '\r'
  else if c = 'b' then some '\x08'
  else if c = 'f' then some '\x0c'
  else none

/-- Parse the remainder of a JSON string literal, the opening quote
already consumed; returns the decoded characters and the rest of the
input (unicode escapes are outside the modelled subset). -/
def parseJString (acc : List Char) : List Char → Option (List Char × List Char)
  | [] => none
  | '"' :: rest => some (acc.reverse, rest)
  | '\\' :: c :: rest =>
    match escChar c with
    | some ec => parseJString (ec :: acc) rest
    | none => none
  | ['\\'] => none
  | c :: rest => parseJString (c :: acc) rest

/-- Numeric value of a decimal digit character, if it is one. -/
def digitVal (c : Char) : Option Nat :=
  let n := c.toNat
  if 48 ≤ n && n ≤ 57 then some (n - 48) else none

/-- Collect a maximal run of decimal digits. -/
def takeDigits : List Char → List Nat × List Char
  | [] => ([], [])
  | c :: rest =>
    match digitVal c with
    | some d =>
      let (ds, r) := takeDigits rest
      (d :: ds, r)
    | none => ([], c :: rest)

/-- Value of a digit run read most significant first. -/
def digitsToNat (ds : List Nat) : Nat :=
  ds.foldl (fun a d => 10 * a + d) 0

/-- Parse a JSON number (optional minus sign, integer part, optional
fraction; the exponent form is outside the modelled subset) into an
exact rational, built as one integer division so that the value is
computable by the kernel. -/
def parseJNumber (cs : List Char) : Option (ℚ × List Char) :=
  let (neg, cs1) :=
    match cs with
    | '-' :: rest => (true, rest)
    | _ => (false, cs)
  match takeDigits cs1 with
  | ([], _) => none
  | (ds, cs2) =>
    let (mant, den, cs3) :=
      match cs2 with
      | '.' :: rest =>
        match takeDigits rest with
        | ([], _) => (none, 1, cs2)
        | (fs, r) =>
          (some (digitsToNat ds * 10 ^ fs.length + digitsToNat fs),
           (10 : Nat) ^ fs.length, r)
      | _ => (some (digitsToNat ds), 1, cs2)
    match mant with
    | none => none
    | some m =>
      some (Rat.divInt (if neg then -(m : ℤ) else (m : ℤ)) (den : ℤ), cs3)

/-- State of the recursive-descent JSON reader: at a value, inside an
array, or inside an object. -/
inductive JMode where
  | value : JMode
  | arrItems (acc : List Json) : JMode
  | objMembers (acc : List (String × Json)) : JMode

/-- Fuel-indexed recursive-descent JSON parser modelling json.loads on
the subset described above.  In array mode the opening bracket is
already consumed and at least one item is expected; in object mode the
opening brace is already consumed, at least one member is expected,
and duplicate keys overwrite earlier values as in Python dict
construction. -/
def parseJ : Nat → JMode → List Char → Option (Json × List Char)
  | 0, _, _ => none
  | fuel + 1, JMode.value, cs =>
    match skipWs cs with
    | 'n' :: 'u' :: 'l' :: 'l' :: rest => some (Json.null, rest)
    | 't' :: 'r' :: 'u' :: 'e' :: rest => some (Json.bool true, rest)
    | 'f' :: 'a' :: 'l' :: 's' :: 'e' :: rest => some (Json.bool false, rest)
    | '"' :: rest =>
      match parseJString [] rest with
      | some (s, r) => some (Json.str (String.mk s), r)
      | none => none
    | '[' :: rest =>
      match skipWs rest with
      | ']' :: r => some (Json.arr [], r)
      | r1 => parseJ fuel (JMode.arrItems []) r1
    | '{' :: rest =>
      match skipWs rest with
      | '}' :: r => some (Json.obj [], r)
      | r1 => parseJ fuel (JMode.objMembers []) r1
    | rest =>
      match parseJNumber rest with
      | some (q, r) => some (Json.num q, r)
      | none => none
  | fuel + 1, JMode.arrItems acc, cs =>
    match parseJ fuel JMode.value cs with
    | none => none
    | some (v, r) =>
      match skipWs r with
      | ',' :: r2 => parseJ fuel (JMode.arrItems (acc ++ [v])) r2
      | ']' :: r2 => some (Json.arr (acc ++ [v]), r2)
      | _ => none
  | fuel + 1, JMode.objMembers acc, cs =>
    match skipWs cs with
    | '"' :: rest =>
      match parseJString [] rest with
      | none => none
      | some (k, r) =>
        match skipWs r with
        | ':' :: r2 =>
          match parseJ fuel JMode.value r2 with
          | none => none
          | some (v, r3) =>
            match skipWs r3 with
            | ',' :: r4 =>
              parseJ fuel (JMode.objMembers (jinsert acc (String.mk k) v)) r4
            | '}' :: r4 => some (Json.obj (jinsert acc (String.mk k) v), r4)
            | _ => none
        | _ => none
    | _ => none

/-- Python json.loads on the modelled subset: a single JSON document
with nothing but whitespace after it; anything else raises, modelled
as none. -/
def jsonLoads (s : String) : Option Json :=
  match parseJ (s.length + 1) JMode.value s.toList with
  | some (v, r) => if (skipWs r).isEmpty then some v else none
  | none => none

end JsonLoads

section IntentParsing

/-- Index of the last closing brace of a character list, if any. -/
def lastCloseBraceIdx (cs : List Char) : Option Nat :=
  match cs.reverse.findIdx? (fun c => c = '}') with
  | some r => some (cs.length - 1 - r)
  | none => none

/-- The text matched by the Python regex search for brace-start,
anything (DOTALL), brace-end in ai_service.py line 134: greedy
matching takes everything from the first opening brace to the last
closing brace of the whole text, provided that closing brace comes
after the opening one; otherwise there is no match. -/
def greedyBraceRegion (s : String) : Option String :=
  let cs := s.toList
  match cs.findIdx? (fun c => c = '{'), lastCloseBraceIdx cs with
  | some i, some j =>
    if i < j then some (String.mk ((cs.drop i).take (j + 1 - i))) else none
  | _, _ => none

/-- Depth-counting scan over a character list that starts at an opening
brace, returning the region up to the brace that closes it. -/
def balancedScan : List Char → Nat → List Char → Option (List Char)
  | [], _, _ => none
  | c :: rest, depth, acc =>
    if c = '{' then balancedScan rest (depth + 1) (c :: acc)
    else if c = '}' then
      if depth = 1 then some (c :: acc).reverse
      else if depth = 0 then none
      else balancedScan rest (depth - 1) (c :: acc)
    else balancedScan rest depth (c :: acc)

/-- Modelled from the spec: the first balanced brace-delimited region
of a text, i.e. the region from the first opening brace to the brace
that closes it.  This is the extraction the specification describes;
it exists only for comparison with greedyBraceRegion, which is what
the code computes. -/
def firstBalancedBraceRegion (s : String) : Option String :=
  match s.toList.dropWhile (fun c => c ≠ '{') with
  | [] => none
  | l => (balancedScan l 0 []).map (fun cs => String.mk cs)

/-- One recorded conversation message (models/conversation.py Message):
role, content and the optional action tag; the timestamp is real time
and is not modelled. -/
structure Turn where
  role : String
  content : String
  action : Option Json

/-- The single prompt AIService.parse_command sends to the language
oracle (ai_service.py lines 102-127), rendered with the doubled braces
of the Python f-string collapsed.  It embeds the fixed instruction and
the utterance and nothing else. -/
def parse_prompt (user_input : String) : String :=
  "You are an email assistant AI. Parse the user\x27s command and extract the intent and parameters.\n\nUser command: \"" ++
  user_input ++
  "\"\n\nAvailable actions:\n- \"read\": Fetch and show emails (params: count, filter)\n- \"send\": Send an email (params: to, subject, body)\n- \"delete\": Delete emails (params: email_id or search_criteria)\n- \"search\": Search for specific emails (params: query)\n- \"summarize\": Generate summary or digest\n- \"chat\": General conversation (no email action)\n\nReturn a JSON object with:\n\x7b\n  \"action\": \"read|send|delete|search|summarize|chat\",\n  \"parameters\": \x7b\x7d,\n  \"confidence\": 0.0-1.0,\n  \"response_text\": \"brief acknowledgment or clarifying question\"\n\x7d\n\nExamples:\n- \"Show me my last 5 emails\" → \x7b\"action\": \"read\", \"parameters\": \x7b\"count\": 5\x7d, \"confidence\": 0.95\x7d\n- \"Delete the email from john\" → \x7b\"action\": \"delete\", \"parameters\": \x7b\"from\": \"john\"\x7d, \"confidence\": 0.8\x7d\n- \"Send email to jane@example.com about meeting\" → \x7b\"action\": \"send\", \"parameters\": \x7b\"to\": \"jane@example.com\", \"subject\": \"meeting\"\x7d, \"confidence\": 0.7\x7d\n\nReturn ONLY valid JSON, no additional text."

/-- The dict returned by parse_command when the regex finds no brace
region in the oracle output (ai_service.py lines 140-145). -/
def parse_fallback_unmatched : Json :=
  Json.obj [("action", Json.str "chat"),
            ("parameters", Json.obj []),
            ("confidence", Json.num (3 / 10)),
            ("response_text",
             Json.str "I\x27m not sure what you want me to do. Could you rephrase?")]

/-- The dict returned by the except-branch of parse_command
(ai_service.py lines 147-154): it handles both an oracle failure and a
json.loads failure on the extracted region, since the whole body sits
in one try block. -/
def parse_fallback_error : Json :=
  Json.obj [("action", Json.str "chat"),
            ("parameters", Json.obj []),
            ("confidence", Json.num 0),
            ("response_text",
             Json.str "Sorry, I couldn\x27t understand that. Try: \x27show me my last 5 emails\x27 or \x27send email to someone@example.com\x27")]

set_option linter.unusedVariables false in
/-- AIService.parse_command (ai_service.py lines 86-154).  The
conversation_context parameter is accepted, as in the source, and —
exactly as in the source — never used: the prompt is built from the
utterance alone.  The oracle is an input; an erroring oracle lands in
the except-branch, an answer with no brace region in the unmatched
fallback, an extracted region that json.loads rejects back in the
except-branch, and a decoded object is returned as-is. -/
def parse_command (user_input : String) (conversation_context : List Turn)
    (oracle : String → Except Unit String) : Json :=
  match oracle (parse_prompt user_input) with
  | Except.error _ => parse_fallback_error
  | Except.ok text =>
    match greedyBraceRegion (pyStrip text) with
    | none => parse_fallback_unmatched
    | some region =>
      match jsonLoads region with
      | some parsed => parsed
      | none => parse_fallback_error

/-- Python positional-argument binding: a call with the given number of
positional arguments (the bound self included) succeeds exactly when it
lies between the number of parameters without defaults and the total
number of parameters. -/
def python_call_ok (minArgs maxArgs given : Nat) : Bool :=
  minArgs ≤ given && given ≤ maxArgs

/-- Fewest positional arguments AIService.parse_command accepts: self
and user_input (ai_service.py line 86). -/
def parse_command_min_args : Nat := 2

/-- Most positional arguments AIService.parse_command accepts: self,
user_input and conversation_context (ai_service.py line 86). -/
def parse_command_max_args : Nat := 3

/-- Positional arguments of the bound call at chat.py line 149: self
plus request.message, history and recent_emails. -/
def chat_parse_call_args : Nat := 4

/-- Fewest positional arguments AIService.chat_response accepts: self
and user_message (ai_service.py line 303). -/
def chat_response_min_args : Nat := 2

/-- Most positional arguments AIService.chat_response accepts: self,
user_message and conversation_history (ai_service.py line 303). -/
def chat_response_max_args : Nat := 3

/-- Positional arguments of the bound call at chat.py line 213: self
plus request.message, history and recent_emails. -/
def chat_response_call_args : Nat := 4

/-- AIService.chat_response (ai_service.py lines 303-338): context from
the last five history turns, a conversational prompt, and a fixed
fallback line when the oracle call fails. -/
def chat_response (user_message : String) (conversation_history : List Turn)
    (oracle : String → Except Unit String) : String :=
  let context := String.join
    ((conversation_history.drop (conversation_history.length - 5)).map
      (fun m => m.role ++ ": " ++ m.content ++ "\n"))
  let prompt :=
    "You are a helpful email assistant. Have a natural conversation with the user.\n\n" ++
    context ++ "\nuser: " ++ user_message ++
    "\n\nRespond naturally and helpfully. If they seem to want email help, gently guide them with examples like:\n- \"Show me my last 5 emails\"\n- \"Delete emails from someone@example.com\"\n- \"Send an email to...\"\n\nassistant:"
  match oracle prompt with
  | Except.ok t => pyStrip t
  | Except.error _ =>
    "I\x27m here to help with your emails! Try asking me to show your recent emails or send a message."

end IntentParsing

section DigestComposer

/-- The numbered sender-and-subject lines of the digest prompt
(ai_service.py lines 275-279): at most the first ten messages,
numbered from one. -/
def digest_lines (emails : List Email) : List String :=
  (emails.take 10).enum.map
    (fun ie => toString (ie.1 + 1) ++ ". From: " ++ ie.2.sender_name ++
      " | Subject: " ++ ie.2.subject)

/-- The digest prompt sent to the oracle (ai_service.py lines
281-293). -/
def digest_prompt (emails : List Email) : String :=
  "Create a brief daily email digest. Summarize the key emails and suggest any important actions.\n\nEmails received (" ++
  toString emails.length ++ " total):\n" ++
  String.intercalate "\n" (digest_lines emails) ++
  "\n\nProvide:\n1. A brief overview (2-3 sentences)\n2. Top 3 emails that need attention\n3. Suggested actions\n\nKeep it concise and actionable.\n\nDigest:"

/-- AIService.generate_digest (ai_service.py lines 261-301).  Returns
the digest text together with the trace of prompts sent to the oracle,
so that absence of an oracle call is statable.  Empty input returns
the fixed string before anything else happens; otherwise the oracle is
consulted once, and an oracle failure falls back to a deterministic
count-plus-senders line. -/
def generate_digest (emails : List Email)
    (oracle : String → Except Unit String) : String × List String :=
  if emails.isEmpty then ("No emails to summarize.", [])
  else
    let prompt := digest_prompt emails
    match oracle prompt with
    | Except.ok t => (pyStrip t, [prompt])
    | Except.error _ =>
      ("You have " ++ toString emails.length ++
       " emails. The most recent are from: " ++
       String.intercalate ", " ((emails.take 3).map (fun e => e.sender_name)),
       [prompt])

end DigestComposer

section Dispatcher

/-- One concrete mailbox operation requested by the dispatch code, with
the arguments exactly as passed to GmailService. -/
inductive MailboxCall where
  | list (max_results : Json)
  | search (query : Json) (max_results : Nat)
  | trash (email_id : Json)
  | send (toAddr subject body : Json)

/-- The mailbox collaborator as chat.py sees it: list and search and
send may raise (GmailService re-raises their failures), delete_email
catches internally and reports a boolean. -/
structure Mailbox where
  get_recent_emails : Json → Except Unit (List Email)
  search_emails : Json → Nat → Except Unit (List Email)
  delete_email : Json → Bool
  send_email : Json → Json → Json → Except Unit String

/-- Payload carried in the data field of the chat response. -/
inductive DataVal where
  | emails (xs : List (Email × String))
  | email_id (id : String)
  | email_count (n : Nat)

/-- Result of the dispatch section when it does not raise: the
response text and the optional data payload. -/
structure DispatchOut where
  response_text : String
  data : Option DataVal

/-- Equality test of a decoded JSON value against one of the string
values of the ActionType enum (Python compares the decoded action
against a str-valued enum member, which only a string can equal). -/
def actionIs (a : Json) (k : String) : Bool :=
  match a with
  | Json.str s => s = k
  | _ => false

/-- Python str() of a decoded JSON value, used by the f-string that
interpolates the recipient; the string case is exact, the remaining
cases approximate the Python rendering and are not relied on by any
claim. -/
def pyStr : Json → String
  | Json.str s => s
  | Json.num q => toString q
  | Json.bool true => "True"
  | Json.bool false => "False"
  | Json.null => "None"
  | Json.arr _ => "[...]"
  | Json.obj _ => "\x7b...\x7d"

/-- The action-dispatch section of chat_message (chat.py lines
150-213), modelled as a function of the parsed command dict.  It
returns the trace of mailbox calls attempted (in order) and either the
computed response or an error when the Python code would raise out of
the dispatch section: a mailbox call failing, params not being a dict,
or — in the chat branch — the TypeError of the three-argument
chat_response call at line 213.  There is no confidence test anywhere
in this code. -/
def chat_dispatch (parsed : List (String × Json)) (message : String)
    (history : List Turn) (mb : Mailbox) (summarize : Email → String)
    (digest_oracle : String → Except Unit String)
    (chat_oracle : String → Except Unit String) :
    List MailboxCall × Except Unit DispatchOut :=
  let action := (jget parsed "action").getD (Json.str "chat")
  let params := (jget parsed "parameters").getD (Json.obj [])
  if actionIs action "read" then
    match params with
    | Json.obj ps =>
      let count := (jget ps "count").getD (Json.num 5)
      match mb.get_recent_emails count with
      | Except.ok emails =>
        ([MailboxCall.list count],
         Except.ok
           ⟨"Here are your " ++ toString emails.length ++ " most recent emails:",
            some (DataVal.emails (emails.map (fun e => (e, summarize e))))⟩)
      | Except.error _ => ([MailboxCall.list count], Except.error ())
    | _ => ([], Except.error ())
  else if actionIs action "search" then
    match params with
    | Json.obj ps =>
      let query := (jget ps "query").getD ((jget ps "from").getD (Json.str ""))
      if jsonFalsy query then
        ([], Except.ok
          ⟨"Please specify what to search for. Example: \x27find emails from john@example.com\x27",
           none⟩)
      else
        match mb.search_emails query 10 with
        | Except.ok emails =>
          ([MailboxCall.search query 10],
           Except.ok
             ⟨"Found " ++ toString emails.length ++ " emails matching your search.",
              some (DataVal.emails (emails.map (fun e => (e, summarize e))))⟩)
        | Except.error _ => ([MailboxCall.search query 10], Except.error ())
    | _ => ([], Except.error ())
  else if actionIs action "delete" then
    match params with
    | Json.obj ps =>
      let email_id := (jget ps "email_id").getD Json.null
      if jsonFalsy email_id then
        ([], Except.ok
          ⟨"Please specify which email to delete. Try: \x27delete email ID abc123\x27 or \x27delete the first email\x27",
           none⟩)
      else
        let success := mb.delete_email email_id
        ([MailboxCall.trash email_id],
         Except.ok
           ⟨if success then "Email deleted successfully."
            else "Couldn\x27t delete that email. It may not exist.", none⟩)
    | _ => ([], Except.error ())
  else if actionIs action "send" then
    match params with
    | Json.obj ps =>
      let toAddr := (jget ps "to").getD Json.null
      let subject := (jget ps "subject").getD (Json.str "Message from Gmail Assistant")
      let body := (jget ps "body").getD (Json.str "")
      if jsonFalsy toAddr then
        ([], Except.ok ⟨"Please specify the recipient email address.", none⟩)
      else if jsonFalsy body then
        ([], Except.ok ⟨"Please tell me what you\x27d like to say in the email.", none⟩)
      else
        match mb.send_email toAddr subject body with
        | Except.ok sentId =>
          ([MailboxCall.send toAddr subject body],
           Except.ok ⟨"Email sent successfully to " ++ pyStr toAddr ++ "!",
                      some (DataVal.email_id sentId)⟩)
        | Except.error _ =>
          ([MailboxCall.send toAddr subject body], Except.error ())
    | _ => ([], Except.error ())
  else if actionIs action "summarize" then
    match params with
    | Json.obj ps =>
      let count := (jget ps "count").getD (Json.num 10)
      match mb.get_recent_emails count with
      | Except.ok emails =>
        ([MailboxCall.list count],
         Except.ok ⟨(generate_digest emails digest_oracle).1,
                    some (DataVal.email_count emails.length)⟩)
      | Except.error _ => ([MailboxCall.list count], Except.error ())
    | _ => ([], Except.error ())
  else
    if python_call_ok chat_response_min_args chat_response_max_args
        chat_response_call_args then
      ([], Except.ok ⟨chat_response message history chat_oracle, none⟩)
    else
      ([], Except.error ())

/-- The action value recorded on the user turn and returned in the
response: the parsed action unless it is the chat kind (chat.py lines
220 and 247). -/
def stored_action (action : Json) : Option Json :=
  if actionIs action "chat" then none else some action

/-- The two conversation messages built at chat.py lines 216-227: the
user utterance (tagged with the non-chat action) followed by the
assistant response. -/
def chat_turns (message : String) (action : Json) (response_text : String) :
    List Turn :=
  [⟨"user", message, stored_action action⟩, ⟨"assistant", response_text, none⟩]

/-- The conversation-store commit of chat_message (chat.py lines
215-243) as it composes with the surrounding try/except: when the
dispatch section returned normally the two turns are appended, and
when it raised, control jumps to the handler at line 253 and nothing
is appended. -/
def chat_store (message : String) (action : Json)
    (d : List MailboxCall × Except Unit DispatchOut) : List Turn :=
  match d.2 with
  | Except.ok out => chat_turns message action out.response_text
  | Except.error _ => []

/-- The body of the HTTP response built at chat.py lines 245-251. -/
structure ChatResponseOut where
  response : String
  action : Option Json
  data : Option DataVal
  confidence : Option Json

/-- Terminal outcome of the chat_message handler: the appended turns
plus the response body, or the HTTPException of the except-branch. -/
inductive HandlerResult where
  | ok (turns : List Turn) (resp : ChatResponseOut)
  | httpError (code : Nat)

/-- The chat_message handler (chat.py lines 117-258): fetch ten recent
emails for context, then call AIService.parse_command with three
positional arguments — a call that Python refuses, since the method
accepts at most self plus two — so control reaches the dispatch and
store sections only if that binding were to succeed.  Any exception
lands in the generic except-branch, which raises HTTPException 500 and
commits nothing. -/
def chat_message (message : String) (history : List Turn) (mb : Mailbox)
    (summarize : Email → String)
    (parse_oracle digest_oracle chat_oracle : String → Except Unit String) :
    HandlerResult :=
  match mb.get_recent_emails (Json.num 10) with
  | Except.error _ => HandlerResult.httpError 500
  | Except.ok _ =>
    if python_call_ok parse_command_min_args parse_command_max_args
        chat_parse_call_args then
      match parse_command message history parse_oracle with
      | Json.obj kvs =>
        let action := (jget kvs "action").getD (Json.str "chat")
        match chat_dispatch kvs message history mb summarize digest_oracle
            chat_oracle with
        | (_, Except.error _) => HandlerResult.httpError 500
        | (_, Except.ok out) =>
          HandlerResult.ok (chat_turns message action out.response_text)
            ⟨out.response_text, stored_action action, out.data,
             jget kvs "confidence"⟩
      | _ => HandlerResult.httpError 500
    else
      HandlerResult.httpError 500

end Dispatcher

section ObservationHelpers

/-- The action field of a parsed command dict. -/
def getAction (j : Json) : Option Json :=
  match j with
  | Json.obj kvs => jget kvs "action"
  | _ => none

/-- The confidence field of a parsed command dict. -/
def getConfidence (j : Json) : Option Json :=
  match j with
  | Json.obj kvs => jget kvs "confidence"
  | _ => none

/-- A mailbox on which every operation succeeds and the inbox is
empty; used to instantiate dispatch scenarios. -/
def mbOkEmpty : Mailbox :=
  { get_recent_emails := fun _ => Except.ok []
    search_emails := fun _ _ => Except.ok []
    delete_email := fun _ => true
    send_email := fun _ _ _ => Except.ok "sent-1" }

/-- A mailbox identical to mbOkEmpty except that sending raises, the
way GmailService.send_email re-raises an API failure. -/
def mbSendFail : Mailbox :=
  { get_recent_emails := fun _ => Except.ok []
    search_emails := fun _ _ => Except.ok []
    delete_email := fun _ => true
    send_email := fun _ _ _ => Except.error () }

/-- An oracle that fails on every call. -/
def noOracle : String → Except Unit String := fun _ => Except.error ()

/-- A summarizer returning the empty summary for every email. -/
def noSummary : Email → String := fun _ => ""

end ObservationHelpers

/-! ## Theorems -/

/-- The loop of categorize_emails computes, bucket by bucket, the input
filtered by the rule cascade, appended to whatever the accumulator
already held. -/
theorem categorize_foldl (es : List Email) :
    ∀ acc : Categories,
      es.foldl (fun cs e => cs.push (bucketOf e) e) acc =
        ⟨acc.urgent ++ es.filter (fun e => bucketOf e = Cat.urgent),
         acc.work ++ es.filter (fun e => bucketOf e = Cat.work),
         acc.personal ++ es.filter (fun e => bucketOf e = Cat.personal),
         acc.promotions ++ es.filter (fun e => bucketOf e = Cat.promotions),
         acc.other ++ es.filter (fun e => bucketOf e = Cat.other)⟩ := by
  induction es with
  | nil => intro acc; simp
  | cons e rest ih =>
    intro acc
    simp only [List.foldl_cons, ih, List.filter_cons]
    rcases h : bucketOf e with _ | _ | _ | _ | _ <;>
      simp [Categories.push, h]

/-- The rule cascade never selects the bucket named other. -/
theorem bucketOf_ne_other (e : Email) : bucketOf e ≠ Cat.other := by
  unfold bucketOf
  dsimp only
  split <;> [skip; split <;> [skip; split <;> [skip; split]]] <;> simp

/-- Occurrence count in a filtered list. -/
theorem count_filter_eq (a : Email) (p : Email → Bool) (l : List Email) :
    (l.filter p).count a = if p a then l.count a else 0 := by
  induction l with
  | nil => simp
  | cons b rest ih =>
    by_cases hb : p b
    · by_cases hab : a = b
      · subst hab
        simp [List.filter_cons, hb, List.count_cons, ih]
      · simp [List.filter_cons, hb, List.count_cons, ih, hab]
    · by_cases hab : a = b
      · subst hab
        simp [List.filter_cons, hb, List.count_cons, ih]
      · simp [List.filter_cons, hb, List.count_cons, ih, hab]

/-- Bucket-by-bucket description of categorize_emails. -/
theorem categorize_emails_eq (es : List Email) :
    categorize_emails es =
      ⟨es.filter (fun e => bucketOf e = Cat.urgent),
       es.filter (fun e => bucketOf e = Cat.work),
       es.filter (fun e => bucketOf e = Cat.personal),
       es.filter (fun e => bucketOf e = Cat.promotions),
       []⟩ := by
  unfold categorize_emails
  rw [categorize_foldl]
  have hother : es.filter (fun e => bucketOf e = Cat.other) = [] := by
    simp only [List.filter_eq_nil_iff]
    intro a _
    simpa using bucketOf_ne_other a
  simp [Categories.empty, hother]

/-- C7: categorize_emails places each input message in exactly one of
the five buckets urgent, work, personal, promotions, other, chosen by
the first matching rule of the cascade; the union of the bucket
contents is the input with no duplicates or omissions (occurrence
counts add up), and the empty input yields all five buckets present
and empty. -/
theorem C7_categorize_partition :
    (∀ es : List Email,
      (categorize_emails es).urgent =
        es.filter (fun e => bucketOf e = Cat.urgent) ∧
      (categorize_emails es).work =
        es.filter (fun e => bucketOf e = Cat.work) ∧
      (categorize_emails es).personal =
        es.filter (fun e => bucketOf e = Cat.personal) ∧
      (categorize_emails es).promotions =
        es.filter (fun e => bucketOf e = Cat.promotions) ∧
      (categorize_emails es).other = []) ∧
    (∀ (es : List Email) (e : Email),
      (categorize_emails es).urgent.count e +
      (categorize_emails es).work.count e +
      (categorize_emails es).personal.count e +
      (categorize_emails es).promotions.count e +
      (categorize_emails es).other.count e = es.count e) ∧
    categorize_emails [] = Categories.empty := by
  refine ⟨fun es => ?_, fun es e => ?_, by rfl⟩
  · rw [categorize_emails_eq]
    exact ⟨rfl, rfl, rfl, rfl, rfl⟩
  · rw [categorize_emails_eq]
    dsimp only
    rw [count_filter_eq, count_filter_eq, count_filter_eq, count_filter_eq]
    rcases h : bucketOf e with _ | _ | _ | _ | _
    · simp [h]
    · simp [h]
    · simp [h]
    · simp [h]
    · exact absurd h (bucketOf_ne_other e)

/-- C9: generate_digest on the empty input returns the fixed string
and consults the oracle zero times, whatever the oracle is; being a
pure function of its arguments, repeated calls return the same
value. -/
theorem C9_generate_digest_empty :
    ∀ oracle : String → Except Unit String,
      generate_digest [] oracle = ("No emails to summarize.", []) :=
  fun _ => rfl

set_option maxRecDepth 4096 in
/-- C4 counterexample: on oracle output consisting of one balanced
JSON object followed by a stray closing brace, parse_command returns
the generic-help except-branch fallback (kind chat, confidence 0.0),
although the first balanced brace-delimited region exists and parses
as a read intent with confidence 0.9 — so the result is neither that
parsed object (refuting balanced-region extraction) nor the
confidence-0.3 rephrase fallback the claim prescribes when parsing
fails. -/
theorem C4_counterexample :
    parse_command "u" []
      (fun _ => Except.ok "\x7b\"action\": \"read\", \"parameters\": \x7b\x7d, \"confidence\": 0.9\x7d \x7d") =
      parse_fallback_error ∧
    (firstBalancedBraceRegion
        "\x7b\"action\": \"read\", \"parameters\": \x7b\x7d, \"confidence\": 0.9\x7d \x7d").bind
        jsonLoads =
      some (Json.obj [("action", Json.str "read"), ("parameters", Json.obj []),
                      ("confidence", Json.num ((9 : ℚ) / 10))]) ∧
    getAction parse_fallback_error = some (Json.str "chat") ∧
    getConfidence parse_fallback_error = some (Json.num 0) ∧
    getConfidence parse_fallback_unmatched = some (Json.num (3 / 10)) ∧
    (9 : ℚ) / 10 ≠ 0 ∧ (0 : ℚ) ≠ 3 / 10 := by
  refine ⟨by rfl, ?_, by rfl, by rfl, by rfl, by norm_num, by norm_num⟩
  rw [show (9 : ℚ) / 10 = Rat.divInt 9 10 from by rw [Rat.divInt_eq_div]; norm_num]
  rfl

/-- C4 (amended): parse_command never surfaces a hard failure.  It
extracts the region from the first opening brace to the last closing
brace of the stripped oracle output; when no such region exists it
returns the chat intent with confidence 0.3 asking to rephrase; when
the oracle call errors, or the extracted region fails to parse, it
returns the chat intent with confidence 0.0 and generic help text; and
a region that parses is returned as the intent unchanged. -/
theorem C4_parse_recovery :
    (∀ (u : String) (ctx : List Turn) (f : String → Except Unit String),
      f (parse_prompt u) = Except.error () →
      parse_command u ctx f = parse_fallback_error) ∧
    (∀ (u : String) (ctx : List Turn) (f : String → Except Unit String)
        (t : String),
      f (parse_prompt u) = Except.ok t →
      greedyBraceRegion (pyStrip t) = none →
      parse_command u ctx f = parse_fallback_unmatched) ∧
    (∀ (u : String) (ctx : List Turn) (f : String → Except Unit String)
        (t r : String),
      f (parse_prompt u) = Except.ok t →
      greedyBraceRegion (pyStrip t) = some r →
      jsonLoads r = none →
      parse_command u ctx f = parse_fallback_error) ∧
    (∀ (u : String) (ctx : List Turn) (f : String → Except Unit String)
        (t r : String) (j : Json),
      f (parse_prompt u) = Except.ok t →
      greedyBraceRegion (pyStrip t) = some r →
      jsonLoads r = some j →
      parse_command u ctx f = j) := by
  refine ⟨fun u ctx f h => ?_, fun u ctx f t h h2 => ?_,
    fun u ctx f t r h h2 h3 => ?_, fun u ctx f t r j h h2 h3 => ?_⟩
  · simp [parse_command, h]
  · simp [parse_command, h, h2]
  · simp [parse_command, h, h2, h3]
  · simp [parse_command, h, h2, h3]

/-- Witness for C4_parse_recovery at concrete oracle outcomes. -/
theorem C4_parse_recovery_witness :
    parse_command "u" [] noOracle = parse_fallback_error ∧
    parse_command "u" [] (fun _ => Except.ok "no braces") =
      parse_fallback_unmatched ∧
    parse_command "u" [] (fun _ => Except.ok "\x7b]\x7d") =
      parse_fallback_error ∧
    parse_command "u" [] (fun _ => Except.ok "\x7b\"a\": 1\x7d") =
      Json.obj [("a", Json.num 1)] :=
  ⟨C4_parse_recovery.1 "u" [] noOracle rfl,
   C4_parse_recovery.2.1 "u" [] _ "no braces" rfl (by rfl),
   C4_parse_recovery.2.2.1 "u" [] _ "\x7b]\x7d" "\x7b]\x7d" rfl (by rfl) (by rfl),
   C4_parse_recovery.2.2.2 "u" [] _ "\x7b\"a\": 1\x7d" "\x7b\"a\": 1\x7d"
     (Json.obj [("a", Json.num 1)]) rfl (by rfl) (by rfl)⟩

set_option maxRecDepth 4096 in
/-- C8 counterexample: an oracle answer carrying confidence 1.5 flows
through parse_command unmodified — the produced intent has confidence
3/2, which does not lie in the unit interval, so no clamping to the
boundary happens and no error is reported. -/
theorem C8_counterexample :
    getConfidence (parse_command "u" []
      (fun _ => Except.ok "\x7b\"action\": \"chat\", \"parameters\": \x7b\x7d, \"confidence\": 1.5\x7d")) =
      some (Json.num ((3 : ℚ) / 2)) ∧
    ¬((3 : ℚ) / 2 ≤ 1) := by
  refine ⟨?_, by norm_num⟩
  rw [show (3 : ℚ) / 2 = Rat.divInt 15 10 from by rw [Rat.divInt_eq_div]; norm_num]
  rfl

/-- C8 (amended): the parsing step passes the confidence produced by
the oracle through unchanged — whatever it is, in range or not — and
the only confidences the step itself introduces are the fixed fallback
values 0.3 and 0.0, which do lie in the unit interval.  No clamping
and no error report exists. -/
theorem C8_confidence_passthrough :
    (∀ (u : String) (ctx : List Turn) (f : String → Except Unit String)
        (t r : String) (kvs : List (String × Json)),
      f (parse_prompt u) = Except.ok t →
      greedyBraceRegion (pyStrip t) = some r →
      jsonLoads r = some (Json.obj kvs) →
      getConfidence (parse_command u ctx f) = jget kvs "confidence") ∧
    getConfidence parse_fallback_unmatched = some (Json.num (3 / 10)) ∧
    getConfidence parse_fallback_error = some (Json.num 0) ∧
    (0 : ℚ) ≤ 3 / 10 ∧ (3 : ℚ) / 10 ≤ 1 ∧ (0 : ℚ) ≤ 0 ∧ (0 : ℚ) ≤ 1 := by
  refine ⟨fun u ctx f t r kvs h h2 h3 => ?_, by rfl, by rfl,
    by norm_num, by norm_num, by norm_num, by norm_num⟩
  simp [parse_command, h, h2, h3, getConfidence]

set_option maxRecDepth 4096 in
/-- Witness for C8_confidence_passthrough, instantiated at an oracle
answer whose confidence 1.5 lies outside the unit interval. -/
theorem C8_confidence_passthrough_witness :
    getConfidence (parse_command "u" []
      (fun _ => Except.ok "\x7b\"action\": \"chat\", \"parameters\": \x7b\x7d, \"confidence\": 1.5\x7d")) =
      jget [("action", Json.str "chat"), ("parameters", Json.obj []),
            ("confidence", Json.num (Rat.divInt 15 10))] "confidence" :=
  C8_confidence_passthrough.1 "u" [] _
    "\x7b\"action\": \"chat\", \"parameters\": \x7b\x7d, \"confidence\": 1.5\x7d"
    "\x7b\"action\": \"chat\", \"parameters\": \x7b\x7d, \"confidence\": 1.5\x7d"
    [("action", Json.str "chat"), ("parameters", Json.obj []),
     ("confidence", Json.num (Rat.divInt 15 10))]
    rfl (by rfl) (by rfl)

/-- C1 (code bug): a read intent whose confidence 1/5 is below the 0.5
threshold is nevertheless executed by the dispatch section — the
mailbox list call is made and a normal success response is returned,
not a clarification.  No confidence test occurs anywhere in
chat_dispatch, although both the specification and the module
docstring of chat.py ("Low confidence: Ask for clarification")
prescribe one. -/
theorem C1_low_confidence_read_executes :
    chat_dispatch
      [("action", Json.str "read"), ("parameters", Json.obj []),
       ("confidence", Json.num ((1 : ℚ) / 5))]
      "show my emails" [] mbOkEmpty noSummary noOracle noOracle =
      ([MailboxCall.list (Json.num 5)],
       Except.ok ⟨"Here are your 0 most recent emails:",
                  some (DataVal.emails [])⟩) ∧
    (1 : ℚ) / 5 < 1 / 2 :=
  ⟨by rfl, by norm_num⟩

/-- C6 counterexample: a read intent with count 100 passes 100 to the
mailbox list operation unchanged; no clamping into the range 1..50
happens anywhere. -/
theorem C6_counterexample :
    (chat_dispatch
      [("action", Json.str "read"),
       ("parameters", Json.obj [("count", Json.num 100)])]
      "m" [] mbOkEmpty noSummary noOracle noOracle).1 =
      [MailboxCall.list (Json.num 100)] ∧
    ¬((100 : ℚ) ≤ 50) :=
  ⟨by rfl, by norm_num⟩

/-- C6 (amended): for a read intent with no count parameter the
dispatch section asks the mailbox for 5 most recent emails; a supplied
count of any value is passed to the mailbox list operation unmodified,
with no clamping. -/
theorem C6_read_count :
    ∀ (kvs ps : List (String × Json)) (msg : String) (hist : List Turn)
      (mb : Mailbox) (sm : Email → String)
      (dor cor : String → Except Unit String),
      jget kvs "action" = some (Json.str "read") →
      jget kvs "parameters" = some (Json.obj ps) →
      ((jget ps "count" = none →
        (chat_dispatch kvs msg hist mb sm dor cor).1 =
          [MailboxCall.list (Json.num 5)]) ∧
       (∀ v : Json, jget ps "count" = some v →
        (chat_dispatch kvs msg hist mb sm dor cor).1 =
          [MailboxCall.list v])) := by
  intro kvs ps msg hist mb sm dor cor ha hp
  constructor
  · intro hc
    rcases h : mb.get_recent_emails (Json.num 5) with _ | _ <;>
      simp [chat_dispatch, ha, hp, hc, actionIs, h]
  · intro v hc
    rcases h : mb.get_recent_emails v with _ | _ <;>
      simp [chat_dispatch, ha, hp, hc, actionIs, h]

/-- Witness for C6_read_count: absent count dispatches a list of 5,
count 100 dispatches a list of 100. -/
theorem C6_read_count_witness :
    (chat_dispatch [("action", Json.str "read"), ("parameters", Json.obj [])]
      "m" [] mbOkEmpty noSummary noOracle noOracle).1 =
      [MailboxCall.list (Json.num 5)] ∧
    (chat_dispatch
      [("action", Json.str "read"),
       ("parameters", Json.obj [("count", Json.num 100)])]
      "m" [] mbOkEmpty noSummary noOracle noOracle).1 =
      [MailboxCall.list (Json.num 100)] :=
  ⟨(C6_read_count
      [("action", Json.str "read"), ("parameters", Json.obj [])] []
      "m" [] mbOkEmpty noSummary noOracle noOracle rfl rfl).1 rfl,
   (C6_read_count
      [("action", Json.str "read"),
       ("parameters", Json.obj [("count", Json.num 100)])]
      [("count", Json.num 100)]
      "m" [] mbOkEmpty noSummary noOracle noOracle rfl rfl).2
      (Json.num 100) rfl⟩

/-- C10: for a send intent with the to parameter absent, the dispatch
section returns the clarification naming the recipient and makes no
mailbox call at all; with to present and truthy but body absent, it
returns the clarification asking for the message content, again with
no mailbox call; and when both are present and truthy but subject is
absent, only the subject is defaulted — the send call carries the
fixed default subject and exactly the supplied recipient and body,
never invented content. -/
theorem C10_send_missing_field :
    ∀ (kvs ps : List (String × Json)) (msg : String) (hist : List Turn)
      (mb : Mailbox) (sm : Email → String)
      (dor cor : String → Except Unit String),
      jget kvs "action" = some (Json.str "send") →
      jget kvs "parameters" = some (Json.obj ps) →
      ((jget ps "to" = none →
        chat_dispatch kvs msg hist mb sm dor cor =
          ([], Except.ok ⟨"Please specify the recipient email address.",
                          none⟩)) ∧
       (∀ v : Json, jget ps "to" = some v → jsonFalsy v = false →
        jget ps "body" = none →
        chat_dispatch kvs msg hist mb sm dor cor =
          ([], Except.ok
            ⟨"Please tell me what you\x27d like to say in the email.",
             none⟩)) ∧
       (∀ v w : Json, jget ps "to" = some v → jsonFalsy v = false →
        jget ps "body" = some w → jsonFalsy w = false →
        jget ps "subject" = none →
        (chat_dispatch kvs msg hist mb sm dor cor).1 =
          [MailboxCall.send v (Json.str "Message from Gmail Assistant") w])) := by
  intro kvs ps msg hist mb sm dor cor ha hp
  refine ⟨fun hto => ?_, fun v hto hv hb => ?_, fun v w hto hv hb hw hs => ?_⟩
  · simp [chat_dispatch, ha, hp, hto, actionIs, jsonFalsy]
  · simp only [chat_dispatch, ha, hp, hto, hb, Option.getD_some, hv]
    simp [actionIs, jsonFalsy, show ("" : String).isEmpty = true from rfl]
  · rcases h : mb.send_email v (Json.str "Message from Gmail Assistant") w with
      _ | _ <;>
      simp [chat_dispatch, ha, hp, hto, hv, hb, hw, hs, actionIs, h]

/-- Witness for C10_send_missing_field: a send intent with no
parameters clarifies the recipient, one with only a recipient
clarifies the body, and one with recipient and body sends with the
default subject. -/
theorem C10_send_missing_field_witness :
    chat_dispatch [("action", Json.str "send"), ("parameters", Json.obj [])]
      "m" [] mbOkEmpty noSummary noOracle noOracle =
      ([], Except.ok ⟨"Please specify the recipient email address.", none⟩) ∧
    chat_dispatch
      [("action", Json.str "send"),
       ("parameters", Json.obj [("to", Json.str "a@b.c")])]
      "m" [] mbOkEmpty noSummary noOracle noOracle =
      ([], Except.ok
        ⟨"Please tell me what you\x27d like to say in the email.", none⟩) ∧
    (chat_dispatch
      [("action", Json.str "send"),
       ("parameters", Json.obj [("to", Json.str "a@b.c"),
                                ("body", Json.str "hi")])]
      "m" [] mbOkEmpty noSummary noOracle noOracle).1 =
      [MailboxCall.send (Json.str "a@b.c")
        (Json.str "Message from Gmail Assistant") (Json.str "hi")] :=
  ⟨(C10_send_missing_field
      [("action", Json.str "send"), ("parameters", Json.obj [])] []
      "m" [] mbOkEmpty noSummary noOracle noOracle rfl rfl).1 rfl,
   (C10_send_missing_field
      [("action", Json.str "send"),
       ("parameters", Json.obj [("to", Json.str "a@b.c")])]
      [("to", Json.str "a@b.c")]
      "m" [] mbOkEmpty noSummary noOracle noOracle rfl rfl).2.1
      (Json.str "a@b.c") rfl rfl rfl,
   (C10_send_missing_field
      [("action", Json.str "send"),
       ("parameters", Json.obj [("to", Json.str "a@b.c"),
                                ("body", Json.str "hi")])]
      [("to", Json.str "a@b.c"), ("body", Json.str "hi")]
      "m" [] mbOkEmpty noSummary noOracle noOracle rfl rfl).2.2
      (Json.str "a@b.c") (Json.str "hi") rfl rfl rfl rfl rfl⟩

/-- C2 counterexample: a fully specified send intent whose mailbox
send raises makes the conversation-store commit append zero turns, not
two — the send was attempted exactly once, the dispatch section
raised, and the except-branch commits nothing. -/
theorem C2_counterexample :
    chat_store "send hi to a@b.c" (Json.str "send")
      (chat_dispatch
        [("action", Json.str "send"),
         ("parameters", Json.obj [("to", Json.str "a@b.c"),
                                  ("body", Json.str "hi")])]
        "send hi to a@b.c" [] mbSendFail noSummary noOracle noOracle) =
      [] ∧
    (chat_dispatch
        [("action", Json.str "send"),
         ("parameters", Json.obj [("to", Json.str "a@b.c"),
                                  ("body", Json.str "hi")])]
        "send hi to a@b.c" [] mbSendFail noSummary noOracle noOracle).1 =
      [MailboxCall.send (Json.str "a@b.c")
        (Json.str "Message from Gmail Assistant") (Json.str "hi")] ∧
    ([] : List Turn).length ≠ 2 :=
  ⟨by rfl, by rfl, by decide⟩

/-- C2 (amended): whenever the dispatch section completes without an
exception — success, clarification or reported trash failure alike —
the store commit appends exactly two turns: first the user utterance,
then the assistant response; when the dispatch section raises, the
handler aborts and appends nothing. -/
theorem C2_store_two_turns :
    ∀ (msg : String) (action : Json)
      (d : List MailboxCall × Except Unit DispatchOut) (out : DispatchOut),
      d.2 = Except.ok out →
      chat_store msg action d =
        [⟨"user", msg, stored_action action⟩,
         ⟨"assistant", out.response_text, none⟩] ∧
      (chat_store msg action d).length = 2 := by
  intro msg action d out h
  obtain ⟨calls, e⟩ := d
  simp only at h
  subst h
  exact ⟨rfl, rfl⟩

/-- Witness for C2_store_two_turns at the dispatch of a delete intent
lacking its email_id, which completes with a clarification. -/
theorem C2_store_two_turns_witness :
    chat_store "delete it" (Json.str "delete")
      (chat_dispatch
        [("action", Json.str "delete"), ("parameters", Json.obj [])]
        "delete it" [] mbOkEmpty noSummary noOracle noOracle) =
      [⟨"user", "delete it", stored_action (Json.str "delete")⟩,
       ⟨"assistant",
        "Please specify which email to delete. Try: \x27delete email ID abc123\x27 or \x27delete the first email\x27",
        none⟩] ∧
    (chat_store "delete it" (Json.str "delete")
      (chat_dispatch
        [("action", Json.str "delete"), ("parameters", Json.obj [])]
        "delete it" [] mbOkEmpty noSummary noOracle noOracle)).length = 2 :=
  C2_store_two_turns "delete it" (Json.str "delete")
    (chat_dispatch
      [("action", Json.str "delete"), ("parameters", Json.obj [])]
      "delete it" [] mbOkEmpty noSummary noOracle noOracle)
    ⟨"Please specify which email to delete. Try: \x27delete email ID abc123\x27 or \x27delete the first email\x27",
     none⟩
    (by rfl)

/-- C3: every invocation of the chat_message handler ends in the
generic error branch with HTTP 500, because the call to parse_command
at chat.py line 149 passes three positional arguments (plus the bound
self, four) to a method accepting at most three including self —
Python raises TypeError before any intent is dispatched; the
chat_response call at line 213 has the same arity mismatch. -/
theorem C3_chat_message_always_raises :
    ∀ (msg : String) (hist : List Turn) (mb : Mailbox) (sm : Email → String)
      (po dor cor : String → Except Unit String),
      chat_message msg hist mb sm po dor cor = HandlerResult.httpError 500 ∧
      python_call_ok parse_command_min_args parse_command_max_args
        chat_parse_call_args = false ∧
      python_call_ok chat_response_min_args chat_response_max_args
        chat_response_call_args = false := by
  intro msg hist mb sm po dor cor
  refine ⟨?_, rfl, rfl⟩
  rcases h : mb.get_recent_emails (Json.num 10) with _ | _ <;>
    simp [chat_message, h, python_call_ok, parse_command_min_args,
      parse_command_max_args, chat_parse_call_args]

set_option maxRecDepth 16384 in
/-- C5 (code bug): the prompt parse_command sends to the oracle embeds
the fixed instruction and the utterance and nothing else.  For the
spec scenario — utterance after the assistant listed five emails, with
a context email of id msg42 — neither the history turn text nor the
context id occurs in the prompt, the parse result does not depend on
the history argument at all, and the three-argument call that was
meant to hand over history and recent emails is refused by Python. -/
theorem C5_parse_prompt_has_no_context :
    containsSub (parse_prompt "delete the first one")
      "delete the first one" = true ∧
    containsSub (parse_prompt "delete the first one") "msg42" = false ∧
    containsSub (parse_prompt "delete the first one")
      "Here are your 5 most recent emails:" = false ∧
    (∀ (ctx1 ctx2 : List Turn) (f : String → Except Unit String),
      parse_command "delete the first one" ctx1 f =
        parse_command "delete the first one" ctx2 f) ∧
    python_call_ok parse_command_min_args parse_command_max_args
      chat_parse_call_args = false :=
  ⟨by decide, by decide, by decide, fun _ _ _ => rfl, rfl⟩
